import Mathlib

/-!
Verification of the Account & Session Authority of the ambulance-tracker
backend, a shallow embedding of `src/data/account_manager.rs` and
`src/sql/sql_account_manager.rs`.

Modelling choices:
* `AccountId` (a 128-bit Uuid), `SessionToken` (32 random bytes), salts
  (16 bytes) and hashes (32 bytes) are opaque identifiers compared only for
  equality in the source, so they are modelled as `Nat`.
* The Argon2 KDF `hash_password` lives in an external crate; only its
  determinism matters to the source, so every operation takes an arbitrary
  function `hash_password : String → Salt → Hash` as a parameter (the
  `password.as_bytes()` conversion is injective and is absorbed into it).
* The Postgres store is modelled as an explicit state `Db`: a list of
  account rows and a list of session rows.  SQL `fetch_optional` on a
  key-unique `WHERE` clause becomes `List.find?`; `INSERT` prepends a row;
  `UPDATE ... WHERE p` maps the update over rows satisfying `p`;
  `DELETE ... WHERE p` filters them out.  Infrastructure failures (the
  `Other(..)` error variants, which only wrap sqlx/RNG errors) are not
  modelled: the store always answers.
* The operating-system RNG (`OsRng.try_next_u64`, `try_fill_bytes`) is
  modelled by passing the drawn values in: an entropy stream
  `Nat → Nat` for `random_password` (value `i` is the `i`-th `u64` drawn),
  and explicit fresh salts / tokens / ids for the other draws.
* Each operation additionally records the sequence of SQL statements it
  issues (`StoreOp`), so that round-trip/atomicity claims can be stated.
-/

namespace AmbulanceTracker

/-- Account roles, from `AccountRole` in `src/data/account_manager.rs`. -/
inductive AccountRole where
  | User
  | Admin
  | SiteAdmin
deriving DecidableEq, Repr, Fintype

/-- `AccountRole::can_own` from `src/data/account_manager.rs`:
whether it is valid for `self` to own an account of role `property`. -/
def AccountRole.can_own (self property : AccountRole) : Bool :=
  match (self, property) with
  | (AccountRole.SiteAdmin, AccountRole.Admin) => true
  | (AccountRole.Admin, AccountRole.User) => true
  | _ => false

/-- Models `sqlx::types::Uuid` account ids (opaque, equality only). -/
abbrev AccountId := Nat

/-- Models the 32-byte `SessionToken` (opaque, equality only). -/
abbrev SessionToken := Nat

/-- Models a 16-byte password salt (opaque, equality only). -/
abbrev Salt := Nat

/-- Models a 32-byte Argon2 password hash (opaque, equality only). -/
abbrev Hash := Nat

/-- One row of the `accounts` table (columns as used by
`sql_account_manager.rs`: `user_id`, `username`, `role`, `owner_id`,
`password_hash`, `password_salt`, `password_reset_needed`). -/
structure Account where
  user_id : AccountId
  username : String
  role : AccountRole
  owner_id : Option AccountId
  password_hash : Hash
  password_salt : Salt
  password_reset_needed : Bool
deriving DecidableEq, Repr

/-- The persistent store: the `accounts` table and the `sessions` table
(`session_id`, `user_id`). -/
structure Db where
  accounts : List Account
  sessions : List (SessionToken × AccountId)
deriving DecidableEq, Repr

/-- `AccountCreationError` from `src/data/account_manager.rs`
(`Other(Box<dyn Error>)` is collapsed to a nullary variant; the model
never produces it since infrastructure failures are not modelled). -/
inductive AccountCreationError where
  | InvalidOwnerRole
  | OwnerNotFound
  | Other
deriving DecidableEq, Repr

/-- `AccountOwnerManageError` from `src/data/account_manager.rs`. -/
inductive AccountOwnerManageError where
  | UserNotFound
  | Other
deriving DecidableEq, Repr

/-- `AccountChangePasswordError` from `src/data/account_manager.rs`. -/
inductive AccountChangePasswordError where
  | UserNotFound
  | IncorrectPassword
  | Other
deriving DecidableEq, Repr

/-- `AccountLoginError` from `src/data/account_manager.rs`. -/
inductive AccountLoginError where
  | UserNotFound
  | IncorrectPassword
  | Other
deriving DecidableEq, Repr

/-- `SessionRetrievalPurpose` from `src/data/account_manager.rs`. -/
inductive SessionRetrievalPurpose where
  | ChangePassword
  | Other
deriving DecidableEq, Repr

/-- `SessionRetrievalError` from `src/data/account_manager.rs`. -/
inductive SessionRetrievalError where
  | InvalidPurpose
  | InvalidToken
  | Other
deriving DecidableEq, Repr

/-- One SQL statement issued by `SqlAccountManager`, identified by its shape
(which table, which `WHERE` predicate) as written in
`src/sql/sql_account_manager.rs`. -/
inductive StoreOp where
  /-- `SELECT role FROM accounts WHERE user_id=$1` -/
  | selectRoleById (id : AccountId)
  /-- `INSERT INTO accounts(username, password_hash, password_salt, role, owner_id) VALUES (..) RETURNING user_id` -/
  | insertAccount (username : String) (role : AccountRole) (owner : Option AccountId)
  /-- `UPDATE accounts SET password_salt=$3, password_hash=$4 WHERE user_id=$1 AND owner_id=$2 RETURNING 1` -/
  | updateCredsWhereIdAndOwner (id owner : AccountId)
  /-- `DELETE FROM accounts WHERE user_id=$1 AND owner_id=$2 RETURNING 1` -/
  | deleteWhereIdAndOwner (id owner : AccountId)
  /-- `SELECT password_hash, password_salt FROM accounts WHERE user_id=$1` -/
  | selectCredsById (id : AccountId)
  /-- `UPDATE accounts SET password_salt=$2, password_hash=$3, password_reset_needed=false WHERE user_id=$1` -/
  | updateCredsWhereId (id : AccountId)
  /-- `DELETE FROM sessions WHERE session_id=$1` -/
  | deleteSessionByToken (tok : SessionToken)
  /-- `SELECT password_hash, password_salt, user_id FROM accounts WHERE username=$1` -/
  | selectCredsByUsername (username : String)
  /-- `INSERT INTO sessions (session_id, user_id) VALUES ($1, $2)` -/
  | insertSession (tok : SessionToken) (id : AccountId)
  /-- `SELECT accounts.user_id, accounts.password_reset_needed FROM sessions JOIN accounts ON sessions.user_id=accounts.user_id WHERE sessions.session_id=$1` -/
  | selectSessionJoinByToken (tok : SessionToken)
deriving DecidableEq, Repr

deriving instance DecidableEq for Except

/-- Outcome of one Authority call: the store afterwards, the typed result,
and the trace of SQL statements issued. -/
structure Run (ε α : Type) where
  db : Db
  res : Except ε α
  ops : List StoreOp

/-- `ALLOWED_CHARS` from `random_password` in `src/sql/sql_account_manager.rs`:
the fixed 76-character alphabet. -/
def ALLOWED_CHARS : List Char := ['A', 'B', 'C', 'D', 'E', 'F', 'G', 'H', 'I', 'J', 'K', 'L',
  'M', 'N', 'O', 'P', 'Q', 'R', 'S', 'T', 'U', 'V', 'W', 'X', 'Y', 'Z', 'a', 'b', 'c', 'd',
  'e', 'f', 'g', 'h', 'i', 'j', 'k', 'l', 'm', 'n', 'o', 'p', 'q', 'r', 's', 't', 'u', 'v',
  'w', 'x', 'y', 'z', '0', '1', '2', '3', '4', '5', '6', '7', '8', '9', '!', '@', '#', '$',
  '%', '^', '&', '*', '(', ')', '-', '_', '=', '+']

/-- The character-producing loop of `random_password`: `i` is the index of
the next `u64` to draw from the entropy stream, `rand` the `u128`
accumulator (`rand += OsRng.try_next_u64()` is taken only while
`rand < ALLOWED_CHARS.len()`; a draw is a `u64`, hence `% 2 ^ 64`; the
`u128` addition cannot overflow since `rand < 76` whenever it happens). -/
def randomPasswordAux (entropy : Nat → Nat) : Nat → Nat → Nat → List Char
  | _, _, 0 => []
  | i, rand, Nat.succ n =>
    if rand < ALLOWED_CHARS.length then
      let rand2 := rand + entropy i % 2 ^ 64
      ALLOWED_CHARS.getD (rand2 % ALLOWED_CHARS.length) 'A' ::
        randomPasswordAux entropy (i + 1) rand2 n
    else
      ALLOWED_CHARS.getD (rand % ALLOWED_CHARS.length) 'A' ::
        randomPasswordAux entropy i rand n

/-- `random_password` from `src/sql/sql_account_manager.rs`, with the OS RNG
modelled as the stream `entropy` of drawn `u64` values. -/
def random_password (length : Nat) (entropy : Nat → Nat) : String :=
  String.mk (randomPasswordAux entropy 0 0 length)

/-- Modelled from the spec: the `accounts` table schema (the SQL migrations
file is not part of the translated sources) supplies the default value of
`password_reset_needed` for `INSERT`s that omit the column, as
`unchecked_create_account`'s `INSERT` does; per the spec, new accounts
start with `password_reset_required` initialized to true. -/
def newAccountResetNeeded : Bool := true

/-- `SqlAccountManager::unchecked_create_account`: generates a 16-character
temporary password, a fresh salt (passed in as `salt`), hashes the password,
and inserts the row; the store assigns `fresh_id` (`RETURNING user_id`). -/
def unchecked_create_account (hash_password : String → Salt → Hash) (db : Db)
    (username : String) (role : AccountRole) (owner : Option AccountId)
    (entropy : Nat → Nat) (salt : Salt) (fresh_id : AccountId) :
    Db × (AccountId × String) × List StoreOp :=
  let password := random_password 16 entropy
  let hash := hash_password password salt
  let account : Account :=
    { user_id := fresh_id, username := username, role := role, owner_id := owner,
      password_hash := hash, password_salt := salt,
      password_reset_needed := newAccountResetNeeded }
  ({ accounts := account :: db.accounts, sessions := db.sessions },
   (fresh_id, password),
   [StoreOp.insertAccount username role owner])

/-- `SqlAccountManager::create_account`: looks up the owner's role
(else `OwnerNotFound`), checks `can_own` (else `InvalidOwnerRole`), then
delegates to `unchecked_create_account` with `owner_id` set to the caller. -/
def create_account (hash_password : String → Salt → Hash) (db : Db)
    (owner_id : AccountId) (account_role : AccountRole) (username : String)
    (entropy : Nat → Nat) (salt : Salt) (fresh_id : AccountId) :
    Run AccountCreationError (AccountId × String) :=
  match db.accounts.find? (fun a => a.user_id == owner_id) with
  | none => ⟨db, Except.error AccountCreationError.OwnerNotFound,
      [StoreOp.selectRoleById owner_id]⟩
  | some owner =>
    if owner.role.can_own account_role then
      let (db2, result, ops) :=
        unchecked_create_account hash_password db username account_role
          (some owner_id) entropy salt fresh_id
      ⟨db2, Except.ok result, StoreOp.selectRoleById owner_id :: ops⟩
    else
      ⟨db, Except.error AccountCreationError.InvalidOwnerRole,
        [StoreOp.selectRoleById owner_id]⟩

/-- The `WHERE user_id=$1 AND owner_id=$2` predicate shared by
`reset_password` and `delete_account` (`owner_id` is a nullable column, so
the SQL comparison is against `some owner_id`). -/
def ownerTargetPred (account_id owner_id : AccountId) (a : Account) : Bool :=
  a.user_id == account_id && a.owner_id == some owner_id

/-- `SqlAccountManager::reset_password`: one `UPDATE .. WHERE user_id=$1 AND
owner_id=$2 RETURNING 1`; `fetch_optional` is `some` iff a row matched. -/
def reset_password (hash_password : String → Salt → Hash) (db : Db)
    (owner_id account_id : AccountId) (entropy : Nat → Nat) (salt : Salt) :
    Run AccountOwnerManageError String :=
  let password := random_password 16 entropy
  let hash := hash_password password salt
  if db.accounts.any (ownerTargetPred account_id owner_id) then
    ⟨{ db with accounts := db.accounts.map (fun a =>
         if ownerTargetPred account_id owner_id a then
           { a with password_salt := salt, password_hash := hash }
         else a) },
     Except.ok password,
     [StoreOp.updateCredsWhereIdAndOwner account_id owner_id]⟩
  else
    ⟨db, Except.error AccountOwnerManageError.UserNotFound,
     [StoreOp.updateCredsWhereIdAndOwner account_id owner_id]⟩

/-- `SqlAccountManager::delete_account`: one `DELETE .. WHERE user_id=$1 AND
owner_id=$2 RETURNING 1`; `fetch_optional` is `some` iff a row matched. -/
def delete_account (db : Db) (owner_id account_id : AccountId) :
    Run AccountOwnerManageError Unit :=
  if db.accounts.any (ownerTargetPred account_id owner_id) then
    ⟨{ db with accounts :=
         db.accounts.filter (fun a => !ownerTargetPred account_id owner_id a) },
     Except.ok (), [StoreOp.deleteWhereIdAndOwner account_id owner_id]⟩
  else
    ⟨db, Except.error AccountOwnerManageError.UserNotFound,
     [StoreOp.deleteWhereIdAndOwner account_id owner_id]⟩

/-- `SqlAccountManager::change_password`: reads the stored hash and salt
(else `UserNotFound`), recomputes the hash of `current_password` with the
stored salt, and on match issues a second, separate
`UPDATE .. WHERE user_id=$1` that also clears `password_reset_needed`. -/
def change_password (hash_password : String → Salt → Hash) (db : Db)
    (account_id : AccountId) (current_password new_password : String)
    (new_salt : Salt) : Run AccountChangePasswordError Unit :=
  match db.accounts.find? (fun a => a.user_id == account_id) with
  | none => ⟨db, Except.error AccountChangePasswordError.UserNotFound,
      [StoreOp.selectCredsById account_id]⟩
  | some account =>
    let check_hash := hash_password current_password account.password_salt
    if check_hash = account.password_hash then
      let new_hash := hash_password new_password new_salt
      ⟨{ db with accounts := db.accounts.map (fun a =>
           if a.user_id == account_id then
             { a with
                 password_salt := new_salt
                 password_hash := new_hash
                 password_reset_needed := false }
           else a) },
       Except.ok (),
       [StoreOp.selectCredsById account_id, StoreOp.updateCredsWhereId account_id]⟩
    else
      ⟨db, Except.error AccountChangePasswordError.IncorrectPassword,
       [StoreOp.selectCredsById account_id]⟩

/-- `SqlAccountManager::destroy_session`: one unconditional
`DELETE FROM sessions WHERE session_id=$1`; always succeeds. -/
def destroy_session (db : Db) (token : SessionToken) : Run Empty Unit :=
  ⟨{ db with sessions := db.sessions.filter (fun s => !(s.1 == token)) },
   Except.ok (), [StoreOp.deleteSessionByToken token]⟩

/-- `SqlAccountManager::login`: looks the account up by username (else
`UserNotFound`), recomputes the hash with the stored salt (else
`IncorrectPassword`), then inserts a fresh session token (passed in as
`fresh_token`) mapped to the account id. -/
def login (hash_password : String → Salt → Hash) (db : Db)
    (username password : String) (fresh_token : SessionToken) :
    Run AccountLoginError SessionToken :=
  match db.accounts.find? (fun a => a.username == username) with
  | none => ⟨db, Except.error AccountLoginError.UserNotFound,
      [StoreOp.selectCredsByUsername username]⟩
  | some account =>
    let check_hash := hash_password password account.password_salt
    if account.password_hash = check_hash then
      ⟨{ db with sessions := (fresh_token, account.user_id) :: db.sessions },
       Except.ok fresh_token,
       [StoreOp.selectCredsByUsername username,
        StoreOp.insertSession fresh_token account.user_id]⟩
    else
      ⟨db, Except.error AccountLoginError.IncorrectPassword,
       [StoreOp.selectCredsByUsername username]⟩

/-- The `sessions JOIN accounts` lookup of `retrieve_account`: the row
exists iff the session exists and its account row exists. -/
def sessionJoinLookup (db : Db) (token : SessionToken) :
    Option (AccountId × Bool) :=
  match db.sessions.find? (fun s => s.1 == token) with
  | none => none
  | some s =>
    match db.accounts.find? (fun a => a.user_id == s.2) with
    | none => none
    | some a => some (a.user_id, a.password_reset_needed)

/-- `SqlAccountManager::retrieve_account`: joins the session with its
account (else `InvalidToken`), then matches
`(purpose, password_reset_needed)`: `(Other, true)` is `InvalidPurpose`,
everything else succeeds with the account id. -/
def retrieve_account (db : Db) (session_token : SessionToken)
    (purpose : SessionRetrievalPurpose) : Run SessionRetrievalError AccountId :=
  match sessionJoinLookup db session_token with
  | none => ⟨db, Except.error SessionRetrievalError.InvalidToken,
      [StoreOp.selectSessionJoinByToken session_token]⟩
  | some (account_id, password_reset_needed) =>
    match purpose, password_reset_needed with
    | SessionRetrievalPurpose.Other, true =>
      ⟨db, Except.error SessionRetrievalError.InvalidPurpose,
       [StoreOp.selectSessionJoinByToken session_token]⟩
    | _, _ =>
      ⟨db, Except.ok account_id,
       [StoreOp.selectSessionJoinByToken session_token]⟩

/-- `SqlAccountManager::create_site_admin`: delegates directly to
`unchecked_create_account` with role `SiteAdmin` and no owner. -/
def create_site_admin (hash_password : String → Salt → Hash) (db : Db)
    (username : String) (entropy : Nat → Nat) (salt : Salt)
    (fresh_id : AccountId) : Run Empty (AccountId × String) :=
  let (db2, result, ops) :=
    unchecked_create_account hash_password db username AccountRole.SiteAdmin
      none entropy salt fresh_id
  ⟨db2, Except.ok result, ops⟩

/-- Declarative ownership: some stored account row has the target id and
records the caller as its owner. -/
def ownsAccount (db : Db) (owner_id account_id : AccountId) : Prop :=
  ∃ a ∈ db.accounts, a.user_id = account_id ∧ a.owner_id = some owner_id

/-- C1: for every pair of roles `(o, s)`, `can_own o s` is true iff
`(o, s)` is `(SiteAdmin, Admin)` or `(Admin, User)`; being a total Lean
function of its two arguments it is total and side-effect-free, and the
table contains no reflexive pair and no pair granting a role above the
owner's. -/
theorem can_own_iff :
    ∀ o s : AccountRole,
      (AccountRole.can_own o s = true ↔
        ((o = AccountRole.SiteAdmin ∧ s = AccountRole.Admin) ∨
         (o = AccountRole.Admin ∧ s = AccountRole.User))) ∧
      AccountRole.can_own o o = false := by
  decide

/-- The `any`-test of the owner-and-target `WHERE` clause matched iff the
caller owns the target account. -/
theorem any_ownerTarget_iff (db : Db) (owner_id account_id : AccountId) :
    db.accounts.any (ownerTargetPred account_id owner_id) = true ↔
      ownsAccount db owner_id account_id := by
  simp [List.any_eq_true, ownerTargetPred, ownsAccount, Bool.and_eq_true, beq_iff_eq]

/-- C2: `reset_password` and `delete_account` fail with `UserNotFound`
exactly when no stored account row has the target id with the caller
recorded as owner — covering both a missing target and a wrong owner with
the same error — and succeed exactly otherwise; each issues exactly one
store statement, the owner-and-target-predicated write, with no separate
existence check. -/
theorem reset_delete_owner_predicated (hash_password : String → Salt → Hash)
    (db : Db) (owner_id account_id : AccountId) (entropy : Nat → Nat)
    (salt : Salt) :
    ((reset_password hash_password db owner_id account_id entropy salt).res
        = Except.error AccountOwnerManageError.UserNotFound ↔
      ¬ ownsAccount db owner_id account_id) ∧
    ((reset_password hash_password db owner_id account_id entropy salt).res
        = Except.ok (random_password 16 entropy) ↔
      ownsAccount db owner_id account_id) ∧
    ((delete_account db owner_id account_id).res
        = Except.error AccountOwnerManageError.UserNotFound ↔
      ¬ ownsAccount db owner_id account_id) ∧
    ((delete_account db owner_id account_id).res = Except.ok () ↔
      ownsAccount db owner_id account_id) ∧
    (reset_password hash_password db owner_id account_id entropy salt).ops
        = [StoreOp.updateCredsWhereIdAndOwner account_id owner_id] ∧
    (delete_account db owner_id account_id).ops
        = [StoreOp.deleteWhereIdAndOwner account_id owner_id] := by
  have hiff := any_ownerTarget_iff db owner_id account_id
  cases hA : db.accounts.any (ownerTargetPred account_id owner_id) with
  | false =>
    rw [hA] at hiff
    simp only [Bool.false_eq_true, false_iff] at hiff
    simp [reset_password, delete_account, hA, hiff]
  | true =>
    rw [hA] at hiff
    simp only [true_iff] at hiff
    simp [reset_password, delete_account, hA, hiff]

/-- C3: `retrieve_account` fails with `InvalidToken` for every purpose
exactly when the session-join lookup finds no live session — so the token
check precedes the state table — fails with `InvalidPurpose` exactly for a
live session with `password_reset_needed` true and purpose `Other`, and in
every other case returns the session's account id. -/
theorem retrieve_account_decision_table (db : Db) (tok : SessionToken) :
    (∀ p : SessionRetrievalPurpose,
      ((retrieve_account db tok p).res
          = Except.error SessionRetrievalError.InvalidToken ↔
        sessionJoinLookup db tok = none)) ∧
    (∀ p : SessionRetrievalPurpose,
      ((retrieve_account db tok p).res
          = Except.error SessionRetrievalError.InvalidPurpose ↔
        (p = SessionRetrievalPurpose.Other ∧
          ∃ aid, sessionJoinLookup db tok = some (aid, true)))) ∧
    (∀ aid : AccountId,
      ((retrieve_account db tok SessionRetrievalPurpose.ChangePassword).res
          = Except.ok aid ↔
        ∃ r, sessionJoinLookup db tok = some (aid, r))) ∧
    (∀ aid : AccountId,
      ((retrieve_account db tok SessionRetrievalPurpose.Other).res
          = Except.ok aid ↔
        sessionJoinLookup db tok = some (aid, false))) ∧
    (∀ p, (retrieve_account db tok p).db = db) := by
  cases hL : sessionJoinLookup db tok with
  | none =>
    exact ⟨fun p => by cases p <;> simp [retrieve_account, hL],
           fun p => by cases p <;> simp [retrieve_account, hL],
           fun aid => by simp [retrieve_account, hL],
           fun aid => by simp [retrieve_account, hL],
           fun p => by cases p <;> simp [retrieve_account, hL]⟩
  | some v =>
    obtain ⟨aid0, reset0⟩ := v
    cases reset0 <;>
      exact ⟨fun p => by cases p <;> simp [retrieve_account, hL],
             fun p => by cases p <;> simp [retrieve_account, hL],
             fun aid => by simp [retrieve_account, hL, eq_comm],
             fun aid => by simp [retrieve_account, hL, eq_comm],
             fun p => by cases p <;> simp [retrieve_account, hL]⟩

/-- C4: `change_password` fails with `UserNotFound` (store unchanged)
exactly when no stored account has the target id; otherwise it recomputes
the hash of `current_password` with the stored salt, failing with
`IncorrectPassword` and leaving the store unchanged exactly on a mismatch,
and on a match it writes the fresh salt and the hash of `new_password` and
clears `password_reset_needed`; `new_password` is an arbitrary string, so
no strength policy is applied. -/
theorem change_password_spec (hash_password : String → Salt → Hash) (db : Db)
    (account_id : AccountId) (current_password new_password : String)
    (new_salt : Salt) :
    (((change_password hash_password db account_id current_password
          new_password new_salt).res
        = Except.error AccountChangePasswordError.UserNotFound ∧
      (change_password hash_password db account_id current_password
          new_password new_salt).db = db) ↔
      db.accounts.find? (fun a => a.user_id == account_id) = none) ∧
    (((change_password hash_password db account_id current_password
          new_password new_salt).res
        = Except.error AccountChangePasswordError.IncorrectPassword ∧
      (change_password hash_password db account_id current_password
          new_password new_salt).db = db) ↔
      ∃ account, db.accounts.find? (fun a => a.user_id == account_id)
          = some account ∧
        hash_password current_password account.password_salt
          ≠ account.password_hash) ∧
    (((change_password hash_password db account_id current_password
          new_password new_salt).res = Except.ok () ∧
      (change_password hash_password db account_id current_password
          new_password new_salt).db.accounts
        = db.accounts.map (fun a =>
            if a.user_id == account_id then
              { a with
                  password_salt := new_salt
                  password_hash := hash_password new_password new_salt
                  password_reset_needed := false }
            else a)) ↔
      ∃ account, db.accounts.find? (fun a => a.user_id == account_id)
          = some account ∧
        hash_password current_password account.password_salt
          = account.password_hash) ∧
    (change_password hash_password db account_id current_password
        new_password new_salt).db.sessions = db.sessions := by
  cases hF : db.accounts.find? (fun a => a.user_id == account_id) with
  | none => simp [change_password, hF]
  | some account =>
    by_cases hH : hash_password current_password account.password_salt
        = account.password_hash
    · simp [change_password, hF, hH]
    · simp [change_password, hF, hH]

/-- C7: `login` fails with `UserNotFound` (store unchanged) exactly when no
account has the given username, fails with the distinct variant
`IncorrectPassword` (store unchanged) exactly when the account exists but
the recomputed hash differs from the stored one, and on a hash match
returns the fresh session token after persisting the token-to-account
mapping. -/
theorem login_spec (hash_password : String → Salt → Hash) (db : Db)
    (username password : String) (fresh_token : SessionToken) :
    (((login hash_password db username password fresh_token).res
        = Except.error AccountLoginError.UserNotFound ∧
      (login hash_password db username password fresh_token).db = db) ↔
      db.accounts.find? (fun a => a.username == username) = none) ∧
    (((login hash_password db username password fresh_token).res
        = Except.error AccountLoginError.IncorrectPassword ∧
      (login hash_password db username password fresh_token).db = db) ↔
      ∃ account, db.accounts.find? (fun a => a.username == username)
          = some account ∧
        account.password_hash
          ≠ hash_password password account.password_salt) ∧
    ((login hash_password db username password fresh_token).res
        = Except.ok fresh_token ↔
      ∃ account, db.accounts.find? (fun a => a.username == username)
          = some account ∧
        account.password_hash
          = hash_password password account.password_salt ∧
        (login hash_password db username password fresh_token).db.sessions
          = (fresh_token, account.user_id) :: db.sessions) ∧
    (login hash_password db username password fresh_token).db.accounts
      = db.accounts := by
  cases hF : db.accounts.find? (fun a => a.username == username) with
  | none => simp [login, hF]
  | some account =>
    by_cases hH : account.password_hash
        = hash_password password account.password_salt
    · simp [login, hF, hH]
    · simp [login, hF, hH]

/-- C5: `create_account` fails with `OwnerNotFound` (store unchanged)
exactly when the owner lookup finds no account — regardless of the desired
role, so the role check comes strictly after the existence check — and
fails with `InvalidOwnerRole` with the store unchanged exactly when the
owner exists but `can_own owner.role desired_role` is false. -/
theorem create_account_preconditions (hash_password : String → Salt → Hash)
    (db : Db) (owner_id : AccountId) (account_role : AccountRole)
    (username : String) (entropy : Nat → Nat) (salt : Salt)
    (fresh_id : AccountId) :
    (((create_account hash_password db owner_id account_role username entropy
          salt fresh_id).res = Except.error AccountCreationError.OwnerNotFound ∧
      (create_account hash_password db owner_id account_role username entropy
          salt fresh_id).db = db) ↔
      db.accounts.find? (fun a => a.user_id == owner_id) = none) ∧
    (((create_account hash_password db owner_id account_role username entropy
          salt fresh_id).res
        = Except.error AccountCreationError.InvalidOwnerRole ∧
      (create_account hash_password db owner_id account_role username entropy
          salt fresh_id).db = db) ↔
      ∃ owner, db.accounts.find? (fun a => a.user_id == owner_id)
          = some owner ∧
        AccountRole.can_own owner.role account_role = false) := by
  cases hF : db.accounts.find? (fun a => a.user_id == owner_id) with
  | none => simp [create_account, hF]
  | some owner =>
    by_cases hC : AccountRole.can_own owner.role account_role = true
    · simp [create_account, unchecked_create_account, hF, hC]
    · simp only [Bool.not_eq_true] at hC
      simp [create_account, unchecked_create_account, hF, hC]

/-- The character loop of `random_password` produces exactly the requested
number of characters. -/
theorem randomPasswordAux_length (entropy : Nat → Nat) :
    ∀ (n i rand : Nat), (randomPasswordAux entropy i rand n).length = n := by
  intro n
  induction n with
  | zero => intro i rand; rfl
  | succ n ih =>
    intro i rand
    simp only [randomPasswordAux]
    split <;> simp [ih]

/-- `random_password length entropy` has exactly `length` characters. -/
theorem random_password_length (n : Nat) (entropy : Nat → Nat) :
    (random_password n entropy).length = n := by
  show (randomPasswordAux entropy 0 0 n).length = n
  exact randomPasswordAux_length entropy n 0 0

/-- C10: `create_site_admin` performs no store lookup and no authorization,
ownership or role check — its trace is the bare insert — and for every
input it succeeds, inserting a `SiteAdmin` account with `owner_id` `none`
and returning the fresh id together with the cleartext 16-character
temporary password produced by the same `random_password 16` draw that
`create_account` uses. -/
theorem create_site_admin_spec (hash_password : String → Salt → Hash)
    (db : Db) (username : String) (entropy : Nat → Nat) (salt : Salt)
    (fresh_id : AccountId) :
    (create_site_admin hash_password db username entropy salt fresh_id).res
        = Except.ok (fresh_id, random_password 16 entropy) ∧
    (random_password 16 entropy).length = 16 ∧
    (create_site_admin hash_password db username entropy salt fresh_id).db.accounts
        = { user_id := fresh_id, username := username,
            role := AccountRole.SiteAdmin, owner_id := none,
            password_hash := hash_password (random_password 16 entropy) salt,
            password_salt := salt,
            password_reset_needed := true } :: db.accounts ∧
    (create_site_admin hash_password db username entropy salt fresh_id).db.sessions
        = db.sessions ∧
    (create_site_admin hash_password db username entropy salt fresh_id).ops
        = [StoreOp.insertAccount username AccountRole.SiteAdmin none] :=
  ⟨rfl, random_password_length 16 entropy, rfl, rfl, rfl⟩

/-- C8 (defect in the code): `random_password` adds fresh entropy to its
one accumulator only while the accumulator is below 76, so with an entropy
stream whose first draw is 100 every character of a 3-character password is
the same repeated `Y` = `ALLOWED_CHARS[100 % 76]`, and the output does not
change when the entropy available for the second and third positions
changes — the characters after the first are not drawn with fresh entropy;
only the length-3 part of the claim holds on this input. -/
theorem random_password_accumulator_defect :
    random_password 3 (fun _ => 100) = "YYY" ∧
    random_password 3 (fun i => if i = 0 then 100 else 5)
        = random_password 3 (fun _ => 100) ∧
    (random_password 3 (fun _ => 100)).length = 3 := by
  decide

/-- A store holding one account, id 1 owned by id 0, whose stored hash `5`
is the hash (under `fun s n => s.length + n`) of password `pw` with the
stored salt `3`. -/
def dbOneUser : Db where
  accounts := [{
    user_id := 1
    username := "x"
    role := AccountRole.User
    owner_id := some 0
    password_hash := 5
    password_salt := 3
    password_reset_needed := false }]
  sessions := []

/-- C9 counterexample: on a store holding the single account with id 1,
salt 3, and stored hash equal to the hash of the correct current password,
`change_password` issues two store statements — a credential read followed
by a write whose `WHERE` clause names only the target id — so its
existence-plus-credential check and its mutation are not collapsed into
one authorization-checked store round trip. -/
theorem change_password_two_round_trips :
    (change_password (fun s n => s.length + n) dbOneUser 1 "pw" "np" 9).ops
      = [StoreOp.selectCredsById 1, StoreOp.updateCredsWhereId 1] ∧
    ¬ ((change_password (fun s n => s.length + n)
          dbOneUser 1 "pw" "np" 9).ops.length ≤ 1) := by
  decide

/-- C9 amended: only `reset_password` and `delete_account` collapse their
ownership check and mutation into a single owner-and-target-predicated
store write; `destroy_session` is a single unconditional delete; but
`change_password` issues a separate credential-check read followed (on a
match) by a write predicated only on the target id, and `login` and
`create_account` likewise issue a read followed by an insert — up to two
store round trips per call. -/
theorem store_roundtrip_traces (hash_password : String → Salt → Hash)
    (db : Db) (owner_id account_id aid fid : AccountId) (entropy : Nat → Nat)
    (salt new_salt : Salt) (cur new uname pw : String) (tok : SessionToken)
    (role : AccountRole) :
    (reset_password hash_password db owner_id account_id entropy salt).ops
      = [StoreOp.updateCredsWhereIdAndOwner account_id owner_id] ∧
    (delete_account db owner_id account_id).ops
      = [StoreOp.deleteWhereIdAndOwner account_id owner_id] ∧
    (destroy_session db tok).ops = [StoreOp.deleteSessionByToken tok] ∧
    ((change_password hash_password db aid cur new new_salt).ops
        = [StoreOp.selectCredsById aid] ∨
      (change_password hash_password db aid cur new new_salt).ops
        = [StoreOp.selectCredsById aid, StoreOp.updateCredsWhereId aid]) ∧
    ((login hash_password db uname pw tok).ops
        = [StoreOp.selectCredsByUsername uname] ∨
      ∃ i, (login hash_password db uname pw tok).ops
        = [StoreOp.selectCredsByUsername uname, StoreOp.insertSession tok i]) ∧
    ((create_account hash_password db owner_id role uname entropy salt fid).ops
        = [StoreOp.selectRoleById owner_id] ∨
      (create_account hash_password db owner_id role uname entropy salt fid).ops
        = [StoreOp.selectRoleById owner_id,
           StoreOp.insertAccount uname role (some owner_id)]) := by
  refine ⟨?_, ?_, rfl, ?_, ?_, ?_⟩
  · unfold reset_password
    split <;> rfl
  · unfold delete_account
    split <;> rfl
  · unfold change_password
    cases hF : db.accounts.find? (fun a => a.user_id == aid) with
    | none => exact Or.inl rfl
    | some account =>
      by_cases hH : hash_password cur account.password_salt
          = account.password_hash
      · simp [hH]
      · simp [hH]
  · unfold login
    cases hF : db.accounts.find? (fun a => a.username == uname) with
    | none => exact Or.inl rfl
    | some account =>
      by_cases hH : account.password_hash
          = hash_password pw account.password_salt
      · exact Or.inr ⟨account.user_id, by simp [hH]⟩
      · simp [hH]
  · unfold create_account
    cases hF : db.accounts.find? (fun a => a.user_id == owner_id) with
    | none => exact Or.inl rfl
    | some owner =>
      by_cases hC : AccountRole.can_own owner.role role = true
      · exact Or.inr (by simp [hC, unchecked_create_account])
      · simp only [Bool.not_eq_true] at hC
        simp [hC]

/-- C6: an account successfully created by `create_account` is inserted
with `owner_id` equal to the calling owner and `password_reset_needed`
true, and its returned temporary password is the `random_password 16`
draw; hence logging in with that temporary password yields a session token
on which `retrieve_account` with purpose `Other` fails with
`InvalidPurpose`, and once `change_password` with the temporary password
succeeds (which it does), `retrieve_account` with purpose `Other` on the
same token succeeds with the new account's id. -/
theorem create_account_reset_lifecycle (hash_password : String → Salt → Hash)
    (db : Db) (owner_id : AccountId) (account_role : AccountRole)
    (username : String) (entropy : Nat → Nat) (salt : Salt)
    (fresh_id new_id : AccountId) (temp_pw : String) (tok : SessionToken)
    (new_pw : String) (salt2 : Salt)
    (hres : (create_account hash_password db owner_id account_role username
        entropy salt fresh_id).res = Except.ok (new_id, temp_pw)) :
    new_id = fresh_id ∧
    temp_pw = random_password 16 entropy ∧
    (create_account hash_password db owner_id account_role username entropy
        salt fresh_id).db.accounts
      = { user_id := fresh_id, username := username, role := account_role,
          owner_id := some owner_id,
          password_hash := hash_password temp_pw salt,
          password_salt := salt, password_reset_needed := true }
        :: db.accounts ∧
    (login hash_password
        (create_account hash_password db owner_id account_role username
          entropy salt fresh_id).db username temp_pw tok).res
      = Except.ok tok ∧
    (retrieve_account
        (login hash_password
          (create_account hash_password db owner_id account_role username
            entropy salt fresh_id).db username temp_pw tok).db
        tok SessionRetrievalPurpose.Other).res
      = Except.error SessionRetrievalError.InvalidPurpose ∧
    (change_password hash_password
        (login hash_password
          (create_account hash_password db owner_id account_role username
            entropy salt fresh_id).db username temp_pw tok).db
        new_id temp_pw new_pw salt2).res
      = Except.ok () ∧
    (retrieve_account
        (change_password hash_password
          (login hash_password
            (create_account hash_password db owner_id account_role username
              entropy salt fresh_id).db username temp_pw tok).db
          new_id temp_pw new_pw salt2).db
        tok SessionRetrievalPurpose.Other).res
      = Except.ok new_id := by
  cases hF : db.accounts.find? (fun a => a.user_id == owner_id) with
  | none => simp [create_account, hF] at hres
  | some owner =>
    by_cases hC : AccountRole.can_own owner.role account_role = true
    · simp only [create_account, unchecked_create_account, hF, hC, if_true,
        Except.ok.injEq, Prod.mk.injEq] at hres
      obtain ⟨rfl, rfl⟩ := hres.symm
      simp [create_account, unchecked_create_account, hF, hC, login,
        retrieve_account, change_password, sessionJoinLookup, List.find?,
        newAccountResetNeeded]
    · simp only [Bool.not_eq_true] at hC
      simp [create_account, hF, hC] at hres

/-- A store holding one `Admin` account with id 1 (owned by id 0), ready
to create a `User` account. -/
def dbOneAdmin : Db where
  accounts := [{
    user_id := 1
    username := "a"
    role := AccountRole.Admin
    owner_id := some 0
    password_hash := 0
    password_salt := 0
    password_reset_needed := false }]
  sessions := []

/-- Concrete run of the C6 lifecycle: with the all-zero entropy stream the
temporary password is sixteen repetitions of the first alphabet character;
after the admin with id 1 creates a `User` account with fresh id 2 and the
new user logs in with that temporary password obtaining token 9,
retrieving the session for purpose `Other` fails with `InvalidPurpose`. -/
theorem create_account_reset_lifecycle_witness :
    (create_account (fun s n => s.length + n) dbOneAdmin 1 AccountRole.User
        "u" (fun _ => 0) 5 2).res
      = Except.ok (2, "AAAAAAAAAAAAAAAA") ∧
    (retrieve_account
        (login (fun s n => s.length + n)
          (create_account (fun s n => s.length + n) dbOneAdmin 1
            AccountRole.User "u" (fun _ => 0) 5 2).db
          "u" "AAAAAAAAAAAAAAAA" 9).db
        9 SessionRetrievalPurpose.Other).res
      = Except.error SessionRetrievalError.InvalidPurpose :=
  ⟨by decide,
   (create_account_reset_lifecycle (fun s n => s.length + n) dbOneAdmin 1
      AccountRole.User "u" (fun _ => 0) 5 2 2 "AAAAAAAAAAAAAAAA" 9 "np" 7
      (by decide)).2.2.2.2.1⟩

end AmbulanceTracker
